import Mathlib

/-!
Verification of the `new_post.py` script from stanley-rs.

The script reads a list of title words from the command line, captures the
current date, derives a hyphen-joined slug filename and a space-joined title,
and writes a fixed five-line YAML frontmatter template to a new file using
exclusive-create ("x") semantics.

We embed the script shallowly:
* `Date` models a calendar date; `today_dashed` models
  `today.strftime("%Y-%m-%d")` (decimal year, zero-padded month and day).
* `join` models Python's `sep.join(list)`.
* The filesystem is an association list from path to content; `List.lookup`
  models existence checks and reads, and consing models the exclusive-create
  write of a fresh file.
* `new_post` models the whole script as a function from the argument list,
  the captured date and the initial filesystem to an optional error paired
  with the resulting filesystem.
-/

/-- Calendar date, as produced by Python's `date.today()`. -/
structure Date where
  year : Nat
  month : Nat
  day : Nat
deriving DecidableEq, Repr

/-- Zero-pad a natural number to (at least) two decimal digits, as `%m` and
`%d` do in `strftime`. -/
def pad2 (n : Nat) : String :=
  if n < 10 then "0" ++ toString n else toString n

/-- Model of `today.strftime("%Y-%m-%d")`: decimal year, dash, zero-padded
month, dash, zero-padded day. -/
def today_dashed (d : Date) : String :=
  toString d.year ++ "-" ++ pad2 d.month ++ "-" ++ pad2 d.day

/-- Model of Python's `sep.join(words)`: the words in order with `sep`
between consecutive words. -/
def join (sep : String) : List String → String
  | [] => ""
  | [w] => w
  | w :: ws => w ++ sep ++ join sep ws

/-- Model of `title_spaced = " ".join(title_raw)` (line 13 of the script). -/
def title_spaced (title_raw : List String) : String :=
  join " " title_raw

/-- Model of `title_dashed = "-".join(title_raw)` (line 14 of the script). -/
def title_dashed (title_raw : List String) : String :=
  join "-" title_raw

/-- Model of the `frontmatter` list of lines (lines 17-23 of the script). -/
def frontmatter (title_raw : List String) (td : String) : List String :=
  ["---", "layout: post", "title: " ++ title_spaced title_raw,
   "created: " ++ td, "---"]

/-- Model of `post = "\n".join(frontmatter) + "\n\n\n"` (line 25). -/
def post (title_raw : List String) (td : String) : String :=
  join "\n" (frontmatter title_raw td) ++ "\n\n\n"

/-- Model of the target filename `f"{today_dashed}-{title_dashed}.md"`
(line 29). -/
def target_filename (td : String) (title_raw : List String) : String :=
  td ++ "-" ++ title_dashed title_raw ++ ".md"

/-- The error outcomes of the script: `invalidInput` models the
`RuntimeError` raised on an empty title, `alreadyExists` models the
`FileExistsError` raised by open mode "x" on an existing path. -/
inductive PostError where
  | invalidInput
  | alreadyExists
deriving DecidableEq, Repr

/-- The filesystem visible to the script: a finite map from path to file
content, as an association list (most recent write first). -/
abbrev FS := List (String × String)

/-- Shallow embedding of the whole script.  Given the argument words
`title_raw`, the captured date `today` and the current filesystem `fs`, it
returns the error (if any) and the resulting filesystem.  The empty-title
check happens before any filesystem access; the existence check and the
write model `open(..., "x")` followed by `f.write(post)`. -/
def new_post (title_raw : List String) (today : Date) (fs : FS) :
    Option PostError × FS :=
  if title_raw.isEmpty then
    (some PostError.invalidInput, fs)
  else
    let td := today_dashed today
    let fname := target_filename td title_raw
    match fs.lookup fname with
    | some _ => (some PostError.alreadyExists, fs)
    | none => (none, (fname, post title_raw td) :: fs)

/-- Character-level join with a single separator character: reference
decoder domain for the round-trip claims. -/
def joinChar (c : Char) : List (List Char) → List Char
  | [] => []
  | [w] => w
  | w :: ws => w ++ c :: joinChar c ws

/-- Split a character list on every occurrence of `c`, keeping empty
segments, the inverse projection used to state the round-trip claims
(the script itself never splits). -/
def splitOnChar (c : Char) : List Char → List (List Char)
  | [] => [[]]
  | x :: xs =>
    if x = c then [] :: splitOnChar c xs
    else
      match splitOnChar c xs with
      | [] => [[x]]
      | y :: ys => (x :: y) :: ys

theorem splitOnChar_ne_nil (c : Char) (l : List Char) : splitOnChar c l ≠ [] := by
  induction l with
  | nil => simp [splitOnChar]
  | cons x xs ih =>
    simp only [splitOnChar]
    split
    · simp
    · split
      · simp
      · simp

theorem splitOnChar_of_not_mem (c : Char) (w : List Char) (h : c ∉ w) :
    splitOnChar c w = [w] := by
  induction w with
  | nil => rfl
  | cons x xs ih =>
    have h1 : x ≠ c := fun e => h (e ▸ List.mem_cons_self x xs)
    have h2 : c ∉ xs := fun m => h (List.mem_cons_of_mem _ m)
    simp only [splitOnChar, if_neg h1]
    rw [ih h2]

theorem splitOnChar_append_sep (c : Char) (w rest : List Char) (h : c ∉ w) :
    splitOnChar c (w ++ c :: rest) = w :: splitOnChar c rest := by
  induction w with
  | nil => simp [splitOnChar]
  | cons x xs ih =>
    have h1 : x ≠ c := fun e => h (e ▸ List.mem_cons_self x xs)
    have h2 : c ∉ xs := fun m => h (List.mem_cons_of_mem _ m)
    simp only [List.cons_append, splitOnChar, if_neg h1, List.append_eq]
    rw [ih h2]

theorem splitOnChar_joinChar (c : Char) (ws : List (List Char))
    (hne : ws ≠ []) (h : ∀ w ∈ ws, c ∉ w) :
    splitOnChar c (joinChar c ws) = ws := by
  induction ws with
  | nil => exact absurd rfl hne
  | cons w tail ih =>
    cases tail with
    | nil =>
      simp only [joinChar]
      exact splitOnChar_of_not_mem c w (h w (List.mem_cons_self w []))
    | cons w2 t2 =>
      have hw : c ∉ w := h w (List.mem_cons_self _ _)
      have htail : ∀ u ∈ w2 :: t2, c ∉ u := fun u hu =>
        h u (List.mem_cons_of_mem _ hu)
      simp only [joinChar]
      rw [splitOnChar_append_sep c w _ hw, ih (by simp) htail]

theorem join_data (c : Char) (ws : List String) :
    (join (String.mk [c]) ws).data = joinChar c (ws.map String.data) := by
  induction ws with
  | nil => rfl
  | cons w tail ih =>
    cases tail with
    | nil => rfl
    | cons w2 t2 =>
      show (w ++ String.mk [c] ++ join (String.mk [c]) (w2 :: t2)).data = _
      simp only [String.data_append, ih]
      simp [joinChar]

theorem isEmpty_eq_false_of_ne {l : List String} (h : l ≠ []) :
    l.isEmpty = false := by
  simp [List.isEmpty_iff, h]

theorem new_post_success (ws : List String) (d : Date) (fs : FS)
    (hne : ws ≠ [])
    (hfree : fs.lookup (target_filename (today_dashed d) ws) = none) :
    new_post ws d fs =
      (none, (target_filename (today_dashed d) ws,
        post ws (today_dashed d)) :: fs) := by
  simp [new_post, isEmpty_eq_false_of_ne hne, hfree]

theorem new_post_exists (ws : List String) (d : Date) (fs : FS) (c : String)
    (hne : ws ≠ [])
    (hc : fs.lookup (target_filename (today_dashed d) ws) = some c) :
    new_post ws d fs = (some PostError.alreadyExists, fs) := by
  simp [new_post, isEmpty_eq_false_of_ne hne, hc]

theorem post_eq_template (ws : List String) (td : String) :
    post ws td =
      "---" ++ "\n" ++ "layout: post" ++ "\n" ++
      "title: " ++ title_spaced ws ++ "\n" ++
      "created: " ++ td ++ "\n" ++ "---" ++ "\n" ++ "\n" ++ "\n" := by
  apply String.ext
  simp [post, frontmatter, join, String.data_append, List.append_assoc]

theorem post_eq_chunk (ws : List String) (td : String) :
    post ws td =
      "---\nlayout: post\ntitle: " ++ title_spaced ws ++
      "\ncreated: " ++ td ++ "\n---\n\n\n" := by
  apply String.ext
  simp [post, frontmatter, join, String.data_append, List.append_assoc]

/-- C1: for every non-empty sequence of title words and a fixed date, with
the target path not yet present, the script succeeds; the computed filename
is the dashed date, a hyphen, the hyphen-joined words, and `.md`; and the
written content is exactly the five frontmatter lines (`---`,
`layout: post`, `title:` with the space-joined title, `created:` with the
date, `---`), each newline-terminated, with the template's trailing blank
lines. -/
theorem c1_filename_and_template (ws : List String) (d : Date) (fs : FS)
    (hne : ws ≠ [])
    (hfree : fs.lookup (target_filename (today_dashed d) ws) = none) :
    new_post ws d fs =
      (none,
        (today_dashed d ++ "-" ++ join "-" ws ++ ".md",
         "---" ++ "\n" ++ "layout: post" ++ "\n" ++
         "title: " ++ join " " ws ++ "\n" ++
         "created: " ++ today_dashed d ++ "\n" ++
         "---" ++ "\n" ++ "\n" ++ "\n") :: fs) := by
  have h1 : target_filename (today_dashed d) ws =
      today_dashed d ++ "-" ++ join "-" ws ++ ".md" := rfl
  have h2 := post_eq_template ws (today_dashed d)
  rw [new_post_success ws d fs hne hfree, h1, h2]
  rfl

theorem c1_witness :
    (["Hello", "World"] : List String) ≠ [] ∧
    (([] : FS).lookup
      (target_filename (today_dashed ⟨2024, 3, 5⟩) ["Hello", "World"]) = none) ∧
    new_post ["Hello", "World"] ⟨2024, 3, 5⟩ [] =
      (none,
        (today_dashed ⟨2024, 3, 5⟩ ++ "-" ++ join "-" ["Hello", "World"] ++ ".md",
         "---" ++ "\n" ++ "layout: post" ++ "\n" ++
         "title: " ++ join " " ["Hello", "World"] ++ "\n" ++
         "created: " ++ today_dashed ⟨2024, 3, 5⟩ ++ "\n" ++
         "---" ++ "\n" ++ "\n" ++ "\n") :: []) :=
  ⟨by decide, rfl, c1_filename_and_template ["Hello", "World"] ⟨2024, 3, 5⟩ []
    (by decide) rfl⟩

/-- C3: invoking the script with zero title words fails with the
invalid-input error and returns the filesystem untouched, whatever the
date and whatever the filesystem: no file is created and no write is
performed, and the error does not depend on the filesystem at all. -/
theorem c3_empty_title (d : Date) (fs : FS) :
    new_post [] d fs = (some PostError.invalidInput, fs) := rfl

/-- C8: for a single title word, the filename is the dashed date, a hyphen,
the word itself and `.md`, and the title line of the frontmatter is exactly
`title:` followed by the word: the joins introduce no hyphen or space. -/
theorem c8_single_word (w : String) (d : Date) :
    target_filename (today_dashed d) [w] = today_dashed d ++ "-" ++ w ++ ".md" ∧
    title_spaced [w] = w ∧
    frontmatter [w] (today_dashed d) =
      ["---", "layout: post", "title: " ++ w,
       "created: " ++ today_dashed d, "---"] :=
  ⟨rfl, rfl, rfl⟩

/-- C9: the filename computation is not injective in the title words: the
distinct argument lists `["a-b"]` and `["a", "b"]` produce the same
filename on the same date, so after the first succeeds the second fails
with the already-exists error even though the content it would have
written differs from what is on disk. -/
theorem c9_not_injective :
    (["a-b"] : List String) ≠ ["a", "b"] ∧
    target_filename (today_dashed ⟨2024, 3, 5⟩) ["a-b"] =
      target_filename (today_dashed ⟨2024, 3, 5⟩) ["a", "b"] ∧
    post ["a-b"] (today_dashed ⟨2024, 3, 5⟩) ≠
      post ["a", "b"] (today_dashed ⟨2024, 3, 5⟩) ∧
    new_post ["a", "b"] ⟨2024, 3, 5⟩ ((new_post ["a-b"] ⟨2024, 3, 5⟩ []).2) =
      (some PostError.alreadyExists, (new_post ["a-b"] ⟨2024, 3, 5⟩ []).2) := by
  refine ⟨by decide, rfl, by decide, rfl⟩

/-- C10: the written content depends only on the space-joined title and the
date string: two argument lists with equal space-joined forms yield
byte-identical content for the same date, even when their filenames
differ. -/
theorem c10_content_determined (ws1 ws2 : List String) (td : String)
    (h : title_spaced ws1 = title_spaced ws2) :
    post ws1 td = post ws2 td := by
  simp only [post, frontmatter, h]

theorem c10_witness :
    title_spaced ["a b"] = title_spaced ["a", "b"] ∧
    post ["a b"] "2024-03-05" = post ["a", "b"] "2024-03-05" :=
  ⟨rfl, c10_content_determined ["a b"] ["a", "b"] "2024-03-05" rfl⟩

theorem map_mk_data (ws : List String) : (ws.map String.data).map String.mk = ws := by
  induction ws with
  | nil => rfl
  | cons w t ih => simp only [List.map_cons, ih]

/-- C2: when a file already sits at the computed path, the script fails with
the already-exists error and returns the filesystem exactly as it was, so
the pre-existing content is untouched and no partial write occurs; in
particular a second invocation with the same title words on the same date
fails with already-exists, writes nothing, and the file written by the
first invocation still holds exactly the first invocation's content. -/
theorem c2_no_clobber (ws : List String) (d : Date) (fs : FS) (c : String)
    (hne : ws ≠ []) :
    (fs.lookup (target_filename (today_dashed d) ws) = some c →
      new_post ws d fs = (some PostError.alreadyExists, fs)) ∧
    (fs.lookup (target_filename (today_dashed d) ws) = none →
      new_post ws d ((new_post ws d fs).2) =
        (some PostError.alreadyExists, (new_post ws d fs).2) ∧
      ((new_post ws d fs).2).lookup (target_filename (today_dashed d) ws) =
        some (post ws (today_dashed d))) := by
  constructor
  · intro hc
    exact new_post_exists ws d fs c hne hc
  · intro hfree
    have hsucc := new_post_success ws d fs hne hfree
    rw [hsucc]
    have hl : ((target_filename (today_dashed d) ws,
        post ws (today_dashed d)) :: fs).lookup
          (target_filename (today_dashed d) ws) =
        some (post ws (today_dashed d)) := by
      simp [List.lookup]
    exact ⟨new_post_exists ws d _ _ hne hl, hl⟩

theorem c2_witness :
    (["a"] : List String) ≠ [] ∧
    ((([] : FS).lookup (target_filename (today_dashed ⟨2024, 3, 5⟩) ["a"]) =
        some "x" →
      new_post ["a"] ⟨2024, 3, 5⟩ [] = (some PostError.alreadyExists, [])) ∧
     (([] : FS).lookup (target_filename (today_dashed ⟨2024, 3, 5⟩) ["a"]) =
        none →
      new_post ["a"] ⟨2024, 3, 5⟩ ((new_post ["a"] ⟨2024, 3, 5⟩ []).2) =
        (some PostError.alreadyExists, (new_post ["a"] ⟨2024, 3, 5⟩ []).2) ∧
      ((new_post ["a"] ⟨2024, 3, 5⟩ []).2).lookup
          (target_filename (today_dashed ⟨2024, 3, 5⟩) ["a"]) =
        some (post ["a"] (today_dashed ⟨2024, 3, 5⟩)))) :=
  ⟨by decide, c2_no_clobber ["a"] ⟨2024, 3, 5⟩ [] "x" (by decide)⟩

/-- C4: for every non-empty title word sequence the content is exactly the
five template lines in order, each terminated by a newline, followed by
exactly two blank lines; equivalently the content is some prefix followed
by the closing `---` line and three consecutive newline characters with
nothing after. -/
theorem c4_five_lines_two_blanks (ws : List String) (td : String)
    (hne : ws ≠ []) :
    post ws td =
      ("---" ++ "\n") ++ ("layout: post" ++ "\n") ++
      ("title: " ++ title_spaced ws ++ "\n") ++
      ("created: " ++ td ++ "\n") ++ ("---" ++ "\n") ++ ("\n" ++ "\n") ∧
    post ws td =
      ("---\nlayout: post\ntitle: " ++ title_spaced ws ++
        "\ncreated: " ++ td ++ "\n") ++ "---\n\n\n" := by
  constructor <;>
    (apply String.ext;
     simp [post, frontmatter, join, String.data_append, List.append_assoc])

theorem c4_witness :
    (["Hello"] : List String) ≠ [] ∧
    (post ["Hello"] "2024-03-05" =
      ("---" ++ "\n") ++ ("layout: post" ++ "\n") ++
      ("title: " ++ title_spaced ["Hello"] ++ "\n") ++
      ("created: " ++ "2024-03-05" ++ "\n") ++ ("---" ++ "\n") ++ ("\n" ++ "\n") ∧
     post ["Hello"] "2024-03-05" =
      ("---\nlayout: post\ntitle: " ++ title_spaced ["Hello"] ++
        "\ncreated: " ++ "2024-03-05" ++ "\n") ++ "---\n\n\n") :=
  ⟨by decide, c4_five_lines_two_blanks ["Hello"] "2024-03-05" (by decide)⟩

/-- C5: for a title (non-empty, per the Title invariant) in which no word
contains a space or a hyphen, splitting the space-joined form on single
spaces and splitting the hyphen-joined form on single hyphens each recover
the original word sequence exactly, with no characters lost or altered. -/
theorem c5_roundtrip (ws : List String) (hne : ws ≠ [])
    (hsp : ∀ w ∈ ws, ' ' ∉ w.data) (hhy : ∀ w ∈ ws, '-' ∉ w.data) :
    (splitOnChar ' ' (title_spaced ws).data).map String.mk = ws ∧
    (splitOnChar '-' (title_dashed ws).data).map String.mk = ws := by
  have hmapne : ws.map String.data ≠ [] := by
    intro h
    exact hne (List.map_eq_nil_iff.mp h)
  have hsp' : ∀ u ∈ ws.map String.data, ' ' ∉ u := by
    intro u hu
    rcases List.mem_map.mp hu with ⟨w, hw, rfl⟩
    exact hsp w hw
  have hhy' : ∀ u ∈ ws.map String.data, '-' ∉ u := by
    intro u hu
    rcases List.mem_map.mp hu with ⟨w, hw, rfl⟩
    exact hhy w hw
  constructor
  · have hd : (title_spaced ws).data = joinChar ' ' (ws.map String.data) := by
      rw [title_spaced, show (" " : String) = String.mk [' '] from rfl, join_data]
    rw [hd, splitOnChar_joinChar ' ' _ hmapne hsp', map_mk_data]
  · have hd : (title_dashed ws).data = joinChar '-' (ws.map String.data) := by
      rw [title_dashed, show ("-" : String) = String.mk ['-'] from rfl, join_data]
    rw [hd, splitOnChar_joinChar '-' _ hmapne hhy', map_mk_data]

theorem c5_witness :
    (["Hello", "World"] : List String) ≠ [] ∧
    (∀ w ∈ (["Hello", "World"] : List String), ' ' ∉ w.data) ∧
    (∀ w ∈ (["Hello", "World"] : List String), '-' ∉ w.data) ∧
    ((splitOnChar ' ' (title_spaced ["Hello", "World"]).data).map String.mk =
      ["Hello", "World"] ∧
     (splitOnChar '-' (title_dashed ["Hello", "World"]).data).map String.mk =
      ["Hello", "World"]) :=
  ⟨by decide, by decide, by decide,
   c5_roundtrip ["Hello", "World"] (by decide) (by decide) (by decide)⟩

theorem pad2_length_two (n : Nat) (h : n ≤ 31) : (pad2 n).length = 2 := by
  interval_cases n <;> rfl

/-- C6: the date is captured once and formatted as the decimal year, a
dash, the zero-padded month, a dash, and the zero-padded day (for real
months and days the padded fields are exactly two characters), and a
successful run uses the identical formatted date string both in the
output filename and in the `created:` line of the frontmatter. -/
theorem c6_date_capture (d : Date) (ws : List String) (fs : FS)
    (hm : d.month ≤ 12) (hd : d.day ≤ 31) (hne : ws ≠ [])
    (hfree : fs.lookup (target_filename (today_dashed d) ws) = none) :
    today_dashed d =
      toString d.year ++ "-" ++ pad2 d.month ++ "-" ++ pad2 d.day ∧
    (pad2 d.month).length = 2 ∧ (pad2 d.day).length = 2 ∧
    new_post ws d fs =
      (none,
        (today_dashed d ++ "-" ++ title_dashed ws ++ ".md",
         "---\nlayout: post\ntitle: " ++ title_spaced ws ++
           "\ncreated: " ++ today_dashed d ++ "\n---\n\n\n") :: fs) := by
  refine ⟨rfl, pad2_length_two d.month (le_trans hm (by norm_num)),
    pad2_length_two d.day hd, ?_⟩
  rw [new_post_success ws d fs hne hfree, post_eq_chunk]
  rfl

theorem c6_witness :
    (⟨2024, 3, 5⟩ : Date).month ≤ 12 ∧ (⟨2024, 3, 5⟩ : Date).day ≤ 31 ∧
    (["Hello"] : List String) ≠ [] ∧
    (([] : FS).lookup
      (target_filename (today_dashed ⟨2024, 3, 5⟩) ["Hello"]) = none) ∧
    (today_dashed ⟨2024, 3, 5⟩ =
      toString (2024 : Nat) ++ "-" ++ pad2 3 ++ "-" ++ pad2 5 ∧
     (pad2 (⟨2024, 3, 5⟩ : Date).month).length = 2 ∧
     (pad2 (⟨2024, 3, 5⟩ : Date).day).length = 2 ∧
     new_post ["Hello"] ⟨2024, 3, 5⟩ [] =
      (none,
        (today_dashed ⟨2024, 3, 5⟩ ++ "-" ++ title_dashed ["Hello"] ++ ".md",
         "---\nlayout: post\ntitle: " ++ title_spaced ["Hello"] ++
           "\ncreated: " ++ today_dashed ⟨2024, 3, 5⟩ ++ "\n---\n\n\n") :: [])) :=
  ⟨by decide, by decide, by decide, rfl,
   c6_date_capture ⟨2024, 3, 5⟩ ["Hello"] [] (by decide) (by decide)
     (by decide) rfl⟩

/-- C7: a successful run's only effect is the creation of one new file at
the computed path: the resulting filesystem is the old one extended with
exactly that entry, and every other path reads exactly as before. -/
theorem c7_frame (ws : List String) (d : Date) (fs : FS)
    (hne : ws ≠ [])
    (hfree : fs.lookup (target_filename (today_dashed d) ws) = none) :
    new_post ws d fs =
      (none, (target_filename (today_dashed d) ws,
        post ws (today_dashed d)) :: fs) ∧
    ∀ p, p ≠ target_filename (today_dashed d) ws →
      ((new_post ws d fs).2).lookup p = fs.lookup p := by
  have hsucc := new_post_success ws d fs hne hfree
  refine ⟨hsucc, ?_⟩
  intro p hp
  rw [hsucc]
  simp [List.lookup, beq_eq_false_iff_ne.mpr hp]

theorem c7_witness :
    (["Hello"] : List String) ≠ [] ∧
    (([] : FS).lookup
      (target_filename (today_dashed ⟨2024, 3, 5⟩) ["Hello"]) = none) ∧
    (new_post ["Hello"] ⟨2024, 3, 5⟩ [] =
      (none, (target_filename (today_dashed ⟨2024, 3, 5⟩) ["Hello"],
        post ["Hello"] (today_dashed ⟨2024, 3, 5⟩)) :: []) ∧
     ∀ p, p ≠ target_filename (today_dashed ⟨2024, 3, 5⟩) ["Hello"] →
      ((new_post ["Hello"] ⟨2024, 3, 5⟩ []).2).lookup p =
        ([] : FS).lookup p) :=
  ⟨by decide, rfl, c7_frame ["Hello"] ⟨2024, 3, 5⟩ [] (by decide) rfl⟩
